import Mathlib

/-!
Verification of the anybls proxy, shallowly embedded from its Rust sources.

The embedding covers the routing/matching engine (`src/routing/matchers.rs`,
`src/routing/cache.rs`, `src/routing/rule_sets.rs`, `src/routing/router.rs`),
the connection pool (`src/connection_pool.rs`), the bidirectional relay
(`src/zero_copy.rs`) and the SOCKS5 wire handling (`src/protocol.rs`,
`src/proxy.rs`).

Modelling conventions:
* Rust `String`/`&str` become Lean `String`; domain-name algorithms work on
  `List Char` (`String.data`) so that everything evaluates inside the kernel.
* Machine integers (`u8`, `u16`, `u32`, `u128`) become `Nat` with explicit
  masking where the code masks.
* `Result<T, E>` becomes `RustResult E T`; a Rust panic (e.g. `.unwrap()` on an
  `Err`, or a `bytes::Buf` advance past the end of the buffer) is a dedicated
  constructor of the result type of the function that panics.
* `HashMap` becomes an association list whose lookup returns the first binding
  of a key and whose insert replaces any existing binding of that key.
* The external regex engine's matching semantics are irrelevant to every
  property proved here, so all definitions are parametrised by an abstract
  `rIM : String → String → Bool` ("pattern `p` matches input `d`").  Regex
  *compilation* failure is modelled concretely (see `regex_pattern_valid`).
-/

namespace Anybls

/-- Mirror of Rust `Result<T, E>` (with the error type first). -/
inductive RustResult (ε α : Type) where
  | ok (a : α)
  | err (e : ε)
deriving DecidableEq

/-- `HashMap::get` on an association list: the first binding of the key. -/
def alookup {κ α : Type} [DecidableEq κ] : List (κ × α) → κ → Option α
  | [], _ => none
  | (k, v) :: rest, key => if k = key then some v else alookup rest key

/-- `HashMap::insert` on an association list: replace any binding of the key. -/
def ainsert {κ α : Type} [DecidableEq κ] (l : List (κ × α)) (k : κ) (v : α) :
    List (κ × α) :=
  (k, v) :: l.filter (fun p => decide (¬ p.1 = k))

/- ## `src/routing/matchers.rs` -/

/-- `MatcherResult` (matchers.rs:14). -/
inductive MatcherResult where
  | Match
  | NoMatch
deriving DecidableEq, BEq

/-- Split a character list at `'.'`, like Rust `str::split('.')`; the
accumulator holds the current segment reversed. -/
def splitDot : List Char → List Char → List (List Char)
  | [], acc => [acc.reverse]
  | c :: cs, acc => if c = '.' then acc.reverse :: splitDot cs [] else splitDot cs (c :: acc)

/-- Join segments with `'.'`, like Rust `[&str]::join(".")`. -/
def joinDot : List (List Char) → List Char
  | [] => []
  | [x] => x
  | x :: y :: rest => x ++ '.' :: joinDot (y :: rest)

/-- `DomainMatcher::reverse_domain` (matchers.rs:102):
`domain.split('.').rev().collect::<Vec<_>>().join(".")`. -/
def reverse_domain (d : String) : String :=
  String.mk (joinDot (splitDot d.data []).reverse)

/-- Lexicographic `≤` on character lists by code point.  UTF-8 byte order
coincides with code-point order, so this is the key order the `fst` crate
compares with. -/
def charsLe : List Char → List Char → Bool
  | [], _ => true
  | _ :: _, [] => false
  | a :: as, b :: bs =>
    if a.toNat < b.toNat then true
    else if b.toNat < a.toNat then false
    else charsLe as bs

/-- The `fst` crate's `SetBuilder::insert` fails with an out-of-order error
unless keys are inserted in non-decreasing lexicographic byte order; this
predicate says the whole insertion sequence succeeds. -/
def fst_insert_ordered : List String → Bool
  | [] => true
  | [_] => true
  | a :: b :: rest => charsLe a.data b.data && fst_insert_ordered (b :: rest)

/-- Parenthesis balance check on a pattern, with the current open depth. -/
def parens_balanced : List Char → Nat → Bool
  | [], d => d == 0
  | c :: cs, d =>
    if c = '(' then parens_balanced cs (d + 1)
    else if c = ')' then
      match d with
      | 0 => false
      | k + 1 => parens_balanced cs k
    else parens_balanced cs d

/-- Model of the regex crate's pattern parser as invoked by `RegexSet::new`,
restricted to the syntax feature the development needs: a pattern with
unbalanced parentheses (such as `"("`) is rejected, a pattern without
parentheses is accepted.  (The real parser rejects further malformed patterns;
none occur in any statement below.) -/
def regex_pattern_valid (p : String) : Bool := parens_balanced p.data 0

/-- `DomainMatcher` (matchers.rs:20).  The two `fst::Set`s are modelled by
their key lists (`Set::contains` is exact membership); `suffix_domains` holds
the *reversed* suffixes exactly as built by `DomainMatcher::new`.  The
`AhoCorasick` automaton is modelled by its pattern list; the compiled
`RegexSet` by its combined match function. -/
structure DomainMatcher where
  exact_domains : List String
  suffix_domains : List String
  keyword_matcher : List String
  regex_matcher : String → Bool

/-- `DomainMatcher::new` (matchers.rs:36): build the exact-domain FST, the
reversed-suffix FST, the Aho-Corasick automaton (which cannot fail for the
inputs considered here) and the `RegexSet`; any construction error is
propagated as `Err`. -/
def DomainMatcher.new (exact suffix keyword regex : List String)
    (rIM : String → String → Bool) : RustResult String DomainMatcher :=
  if fst_insert_ordered exact then
    if fst_insert_ordered (suffix.map reverse_domain) then
      if regex.all regex_pattern_valid then
        .ok { exact_domains := exact
              suffix_domains := suffix.map reverse_domain
              keyword_matcher := keyword
              regex_matcher := fun d => regex.any (fun p => rIM p d) }
      else .err "Invalid regex"
    else .err "FST error"
  else .err "FST error"

/-- `AhoCorasick::is_match` for one pattern: the pattern occurs as a
contiguous substring of the haystack. -/
def substr_contains (hay pat : String) : Bool := decide (pat.data <:+: hay.data)

/-- `DomainMatcher::matches` (matchers.rs:76): exact FST membership, then
membership of the *reversed* domain in the reversed-suffix FST, then
Aho-Corasick keyword search, then the regex set. -/
def DomainMatcher.matches (m : DomainMatcher) (domain : String) : MatcherResult :=
  if m.exact_domains.contains domain then .Match
  else if m.suffix_domains.contains (reverse_domain domain) then .Match
  else if m.keyword_matcher.any (fun k => substr_contains domain k) then .Match
  else if m.regex_matcher domain then .Match
  else .NoMatch

/-- A parsed CIDR (`ipnet::IpNet`): address family flag, network address as a
`Nat` (below `2^32` resp. `2^128`), prefix length.  `IpMatcher::new` receives
`Vec<String>` and parses each entry; a string that fails to parse is modelled
as `none`. -/
structure Cidr where
  v6 : Bool
  addr : Nat
  plen : Nat
deriving DecidableEq

/-- An `std::net::IpAddr` value. -/
inductive IpAddrT where
  | v4 (a : Nat)
  | v6 (a : Nat)
deriving DecidableEq

/-- `IpMatcher::ipv4_to_prefix` (matchers.rs:168): mask the address with
`!((1u32 << (32 - prefix_len)) - 1)` (all-zero mask when `prefix_len == 0`);
the 32-bit complement of `2^(32-p) - 1` is `2^32 - 2^(32-p)`. -/
def ipv4_prefix_of (addr plen : Nat) : Nat :=
  Nat.land addr (if plen = 0 then 0 else 2 ^ 32 - 2 ^ (32 - plen))

/-- `radix_trie::TrieKey` encoding of a `u32`: its four big-endian bytes.
(Every `u32` encodes to the same length, so the ancestor relation below does
not depend on the endianness choice.) -/
def encode_u32_bytes (n : Nat) : List Nat :=
  [n / 2 ^ 24 % 256, n / 2 ^ 16 % 256, n / 2 ^ 8 % 256, n % 256]

/-- `Trie::get_ancestor(&q).is_some()`: some stored key's encoding is a
prefix of the query key's encoding (the key itself included). -/
def trie_ancestor_exists (keys : List Nat) (q : Nat) : Bool :=
  keys.any (fun k => (encode_u32_bytes k).isPrefixOf (encode_u32_bytes q))

/-- `IpMatcher` (matchers.rs:108): the IPv4 radix trie is modelled by its set
of inserted `u32` keys, the IPv6 side by the list of stored networks. -/
structure IpMatcher where
  ipv4_trie : List Nat
  ipv6_networks : List Cidr
deriving DecidableEq

/-- The loop body of `IpMatcher::new` (matchers.rs:119): parse each CIDR
string (failure aborts with `Err`), insert masked IPv4 prefixes into the trie
and push IPv6 networks onto the vector. -/
def ipMatcherBuild : List (Option Cidr) → List Nat → List Cidr → RustResult String IpMatcher
  | [], t4, t6 => .ok ⟨t4, t6⟩
  | none :: _, _, _ => .err "Invalid CIDR"
  | some c :: rest, t4, t6 =>
    if c.v6 then ipMatcherBuild rest t4 (t6 ++ [c])
    else ipMatcherBuild rest (t4 ++ [ipv4_prefix_of c.addr c.plen]) t6

/-- `IpMatcher::new` (matchers.rs:115). -/
def IpMatcher.new (cidrs : List (Option Cidr)) : RustResult String IpMatcher :=
  ipMatcherBuild cidrs [] []

/-- `Ipv6Net::contains`: the high `plen` bits of the address agree with the
network's. -/
def v6_net_contains (c : Cidr) (a : Nat) : Bool :=
  a / 2 ^ (128 - c.plen) == c.addr / 2 ^ (128 - c.plen)

/-- `IpMatcher::matches` (matchers.rs:143): IPv4 queries ask the radix trie
for an ancestor of the full 32-bit key; IPv6 queries scan the stored networks
linearly. -/
def IpMatcher.matches (m : IpMatcher) (ip : IpAddrT) : MatcherResult :=
  match ip with
  | .v4 a => if trie_ancestor_exists m.ipv4_trie (ipv4_prefix_of a 32) then .Match else .NoMatch
  | .v6 a => if m.ipv6_networks.any (fun c => c.v6 && v6_net_contains c a) then .Match else .NoMatch

/-- `MatcherCache` (matchers.rs:181). -/
structure MatcherCache where
  domain_matchers : List (String × DomainMatcher)
  ip_matchers : List (String × IpMatcher)

/-- `MatcherCache::get_domain_matcher` (matchers.rs:195): return the cached
matcher for `key` if present — the freshly supplied rule-set content is
ignored in that case — otherwise build one from the content, cache it under
`key` and return it. -/
def MatcherCache.get_domain_matcher (c : MatcherCache) (key : String)
    (exact suffix keyword regex : List String) (rIM : String → String → Bool) :
    RustResult String (DomainMatcher × MatcherCache) :=
  match alookup c.domain_matchers key with
  | some m => .ok (m, c)
  | none =>
    match DomainMatcher.new exact suffix keyword regex rIM with
    | .err e => .err e
    | .ok m => .ok (m, { c with domain_matchers := c.domain_matchers ++ [(key, m)] })

/-- `MatcherCache::get_ip_matcher` (matchers.rs:219). -/
def MatcherCache.get_ip_matcher (c : MatcherCache) (key : String)
    (cidrs : List (Option Cidr)) : RustResult String (IpMatcher × MatcherCache) :=
  match alookup c.ip_matchers key with
  | some m => .ok (m, c)
  | none =>
    match IpMatcher.new cidrs with
    | .err e => .err e
    | .ok m => .ok (m, { c with ip_matchers := c.ip_matchers ++ [(key, m)] })

/- ## `src/routing/cache.rs` -/

/-- `MatchCache` (cache.rs:15); the two `HashMap`s are association lists. -/
structure MatchCache where
  domain_cache : List (String × MatcherResult)
  ip_cache : List (IpAddrT × MatcherResult)
  max_size : Nat

/-- `MatchCache::get_domain` (cache.rs:31). -/
def MatchCache.get_domain (c : MatchCache) (domain : String) : Option MatcherResult :=
  alookup c.domain_cache domain

/-- `MatchCache::get_ip` (cache.rs:49). -/
def MatchCache.get_ip (c : MatchCache) (ip : IpAddrT) : Option MatcherResult :=
  alookup c.ip_cache ip

/-- `MatchCache::set_domain` (cache.rs:36): when the cache is full, evict
`len / 2` entries chosen by the map's arbitrary iteration order — modelled as
the first half of the list — then insert. -/
def MatchCache.set_domain (c : MatchCache) (domain : String) (r : MatcherResult) :
    MatchCache :=
  let dc := if c.max_size ≤ c.domain_cache.length
    then c.domain_cache.drop (c.domain_cache.length / 2)
    else c.domain_cache
  { c with domain_cache := ainsert dc domain r }

/-- `MatchCache::set_ip` (cache.rs:54). -/
def MatchCache.set_ip (c : MatchCache) (ip : IpAddrT) (r : MatcherResult) :
    MatchCache :=
  let ic := if c.max_size ≤ c.ip_cache.length
    then c.ip_cache.drop (c.ip_cache.length / 2)
    else c.ip_cache
  { c with ip_cache := ainsert ic ip r }

/-- `MatchCache::clear` (cache.rs:67). -/
def MatchCache.clear (c : MatchCache) : MatchCache :=
  { c with domain_cache := [], ip_cache := [] }

/- ## `src/routing/rule_sets.rs` -/

/-- `DomainRuleSet` (rule_sets.rs:13). -/
structure DomainRuleSet where
  id : String
  domain : List String
  domain_suffix : List String
  domain_keyword : List String
  domain_regex : List String
deriving DecidableEq

/-- `IpRuleSet` (rule_sets.rs:23); each `ip_cidr` entry is a CIDR string,
modelled as its parse result. -/
structure IpRuleSet where
  id : String
  ip_cidr : List (Option Cidr)
deriving DecidableEq

/-- `RuleSetManager` (rule_sets.rs:45).  The `HashMap<RuleSetId, _>`s always
key each set by its own `id` field (`add_domain_set` inserts under
`set.id.clone()` and the fields are private), so they are modelled as lists of
sets looked up by that field. -/
structure RuleSetManager where
  domain_sets : List DomainRuleSet
  ip_sets : List IpRuleSet

/-- `RuleSetManager::add_domain_set` (rule_sets.rs:59): `HashMap::insert`,
replacing any set previously registered under the same id. -/
def RuleSetManager.add_domain_set (m : RuleSetManager) (s : DomainRuleSet) :
    RuleSetManager :=
  { m with domain_sets := s :: m.domain_sets.filter (fun t => t.id != s.id) }

/-- `RuleSetManager::add_ip_set` (rule_sets.rs:64). -/
def RuleSetManager.add_ip_set (m : RuleSetManager) (s : IpRuleSet) :
    RuleSetManager :=
  { m with ip_sets := s :: m.ip_sets.filter (fun t => t.id != s.id) }

/-- `RuleSetManager::get_domain_set` (rule_sets.rs:69). -/
def RuleSetManager.get_domain_set (m : RuleSetManager) (id : String) :
    Option DomainRuleSet :=
  m.domain_sets.find? (fun t => t.id == id)

/-- `RuleSetManager::get_ip_set` (rule_sets.rs:74). -/
def RuleSetManager.get_ip_set (m : RuleSetManager) (id : String) :
    Option IpRuleSet :=
  m.ip_sets.find? (fun t => t.id == id)

/- ## `src/routing/router.rs` -/

/-- `RouteRule` (router.rs:12). -/
structure RouteRule where
  rule_sets : List String
  outbound : String

/-- `HighPerformanceRouter` (router.rs:18), without its two caches, which are
per-process mutable state and live in `RouterState`. -/
structure HighPerformanceRouter where
  rule_manager : RuleSetManager
  rules : List RouteRule
  default_outbound : String

/-- The router's mutable state: the `Arc<RwLock<MatcherCache>>` and
`Arc<RwLock<MatchCache>>` fields. -/
structure RouterState where
  matcher_cache : MatcherCache
  match_cache : MatchCache

/-- Result of a router query; `panicked` models a Rust panic (the `.unwrap()`
in `matches_domain_set` / `matches_ip_set` on a failed matcher build). -/
inductive RRes (α : Type) where
  | ok (a : α)
  | panicked
deriving DecidableEq

/-- `HighPerformanceRouter::matches_domain_set` (router.rs:119): get or build
the matcher for the set's id — `.unwrap()` panics if the build fails — then
test `matcher.matches(domain) == MatcherResult::Match`. -/
def matches_domain_set (rIM : String → String → Bool) (mc : MatcherCache)
    (domain : String) (ds : DomainRuleSet) : RRes Bool × MatcherCache :=
  match mc.get_domain_matcher ds.id ds.domain ds.domain_suffix ds.domain_keyword
      ds.domain_regex rIM with
  | .err _ => (.panicked, mc)
  | .ok (m, mc') => (.ok (m.matches domain == MatcherResult.Match), mc')

/-- `HighPerformanceRouter::matches_ip_set` (router.rs:136). -/
def matches_ip_set (mc : MatcherCache) (ip : IpAddrT) (s : IpRuleSet) :
    RRes Bool × MatcherCache :=
  match mc.get_ip_matcher s.id s.ip_cidr with
  | .err _ => (.panicked, mc)
  | .ok (m, mc') => (.ok (m.matches ip == MatcherResult.Match), mc')

/-- The loop of `HighPerformanceRouter::matches_domain_rule` (router.rs:95)
over the rule's rule-set ids: ids absent from the manager are skipped, the
first matching set short-circuits with `true`. -/
def matches_domain_sets (rIM : String → String → Bool) (mgr : RuleSetManager)
    (domain : String) : List String → MatcherCache → RRes Bool × MatcherCache
  | [], mc => (.ok false, mc)
  | id :: rest, mc =>
    match mgr.get_domain_set id with
    | none => matches_domain_sets rIM mgr domain rest mc
    | some ds =>
      match matches_domain_set rIM mc domain ds with
      | (.panicked, mc') => (.panicked, mc')
      | (.ok true, mc') => (.ok true, mc')
      | (.ok false, mc') => matches_domain_sets rIM mgr domain rest mc'

/-- `HighPerformanceRouter::matches_domain_rule` (router.rs:95). -/
def matches_domain_rule (rIM : String → String → Bool) (mgr : RuleSetManager)
    (domain : String) (rule : RouteRule) (mc : MatcherCache) :
    RRes Bool × MatcherCache :=
  matches_domain_sets rIM mgr domain rule.rule_sets mc

/-- The loop of `HighPerformanceRouter::matches_ip_rule` (router.rs:107). -/
def matches_ip_sets (mgr : RuleSetManager) (ip : IpAddrT) :
    List String → MatcherCache → RRes Bool × MatcherCache
  | [], mc => (.ok false, mc)
  | id :: rest, mc =>
    match mgr.get_ip_set id with
    | none => matches_ip_sets mgr ip rest mc
    | some s =>
      match matches_ip_set mc ip s with
      | (.panicked, mc') => (.panicked, mc')
      | (.ok true, mc') => (.ok true, mc')
      | (.ok false, mc') => matches_ip_sets mgr ip rest mc'

/-- `HighPerformanceRouter::matches_ip_rule` (router.rs:107). -/
def matches_ip_rule (mgr : RuleSetManager) (ip : IpAddrT) (rule : RouteRule)
    (mc : MatcherCache) : RRes Bool × MatcherCache :=
  matches_ip_sets mgr ip rule.rule_sets mc

/-- The rule loop shared by `select_outbound_for_domain` (router.rs:58) and
`find_matching_outbound_for_domain` (router.rs:148): first rule that matches
wins, `none` when no rule matches.  The two source functions run this same
loop and differ only in the match-cache write, which is modelled at the call
site in `select_outbound_for_domain` below. -/
def walk_domain_rules (rIM : String → String → Bool) (mgr : RuleSetManager)
    (domain : String) : List RouteRule → MatcherCache → RRes (Option String) × MatcherCache
  | [], mc => (.ok none, mc)
  | r :: rest, mc =>
    match matches_domain_rule rIM mgr domain r mc with
    | (.panicked, mc') => (.panicked, mc')
    | (.ok true, mc') => (.ok (some r.outbound), mc')
    | (.ok false, mc') => walk_domain_rules rIM mgr domain rest mc'

/-- The rule loop shared by `select_outbound_for_ip` (router.rs:81) and
`find_matching_outbound_for_ip` (router.rs:158). -/
def walk_ip_rules (mgr : RuleSetManager) (ip : IpAddrT) :
    List RouteRule → MatcherCache → RRes (Option String) × MatcherCache
  | [], mc => (.ok none, mc)
  | r :: rest, mc =>
    match matches_ip_rule mgr ip r mc with
    | (.panicked, mc') => (.panicked, mc')
    | (.ok true, mc') => (.ok (some r.outbound), mc')
    | (.ok false, mc') => walk_ip_rules mgr ip rest mc'

/-- `HighPerformanceRouter::select_outbound_for_domain` (router.rs:49).
A cached `Match` result routes through `find_matching_outbound_for_domain`
(re-walking the rules, writing nothing to the match cache); a cached
`NoMatch` or a cache miss walks the rules and caches `Match`/`NoMatch`
accordingly, falling back to the default outbound. -/
def select_outbound_for_domain (rIM : String → String → Bool)
    (router : HighPerformanceRouter) (st : RouterState) (domain : String) :
    RRes String × RouterState :=
  match st.match_cache.get_domain domain with
  | some MatcherResult.Match =>
    let p := walk_domain_rules rIM router.rule_manager domain router.rules st.matcher_cache
    (match p.1 with
     | .panicked => .panicked
     | .ok (some ob) => .ok ob
     | .ok none => .ok router.default_outbound,
     { st with matcher_cache := p.2 })
  | _ =>
    let p := walk_domain_rules rIM router.rule_manager domain router.rules st.matcher_cache
    match p.1 with
    | .panicked => (.panicked, { st with matcher_cache := p.2 })
    | .ok (some ob) =>
      (.ok ob, { matcher_cache := p.2
                 match_cache := st.match_cache.set_domain domain MatcherResult.Match })
    | .ok none =>
      (.ok router.default_outbound,
       { matcher_cache := p.2
         match_cache := st.match_cache.set_domain domain MatcherResult.NoMatch })

/-- `HighPerformanceRouter::select_outbound_for_ip` (router.rs:72). -/
def select_outbound_for_ip (router : HighPerformanceRouter) (st : RouterState)
    (ip : IpAddrT) : RRes String × RouterState :=
  match st.match_cache.get_ip ip with
  | some MatcherResult.Match =>
    let p := walk_ip_rules router.rule_manager ip router.rules st.matcher_cache
    (match p.1 with
     | .panicked => .panicked
     | .ok (some ob) => .ok ob
     | .ok none => .ok router.default_outbound,
     { st with matcher_cache := p.2 })
  | _ =>
    let p := walk_ip_rules router.rule_manager ip router.rules st.matcher_cache
    match p.1 with
    | .panicked => (.panicked, { st with matcher_cache := p.2 })
    | .ok (some ob) =>
      (.ok ob, { matcher_cache := p.2
                 match_cache := st.match_cache.set_ip ip MatcherResult.Match })
    | .ok none =>
      (.ok router.default_outbound,
       { matcher_cache := p.2
         match_cache := st.match_cache.set_ip ip MatcherResult.NoMatch })

/-- `HighPerformanceRouter::clear_cache` (router.rs:172): clears the decision
cache only; the matcher cache is untouched. -/
def clear_cache (st : RouterState) : RouterState :=
  { st with match_cache := st.match_cache.clear }

/- ## Pure companions of the router walk

The stateful walk above threads the matcher cache.  To reason about it, each
step also has a *pure* verdict computed against a fixed base cache; the
lemmas below show the stateful walk realises these verdicts. -/

/-- The matcher `matches_domain_set` builds for a rule set on a cache miss. -/
def build_domain_matcher (rIM : String → String → Bool) (ds : DomainRuleSet) :
    RustResult String DomainMatcher :=
  DomainMatcher.new ds.domain ds.domain_suffix ds.domain_keyword ds.domain_regex rIM

/-- The matcher `matches_ip_set` builds for an IP rule set on a cache miss. -/
def build_ip_matcher (s : IpRuleSet) : RustResult String IpMatcher :=
  IpMatcher.new s.ip_cidr

/-- Pure verdict of one domain rule set against a fixed base cache. -/
def domain_set_verdict (rIM : String → String → Bool)
    (base : List (String × DomainMatcher)) (domain : String) (ds : DomainRuleSet) :
    RRes Bool :=
  match alookup base ds.id with
  | some m => .ok (m.matches domain == MatcherResult.Match)
  | none =>
    match build_domain_matcher rIM ds with
    | .err _ => .panicked
    | .ok m => .ok (m.matches domain == MatcherResult.Match)

/-- Pure verdict of a list of rule-set ids (OR with short-circuit). -/
def domain_sets_verdict (rIM : String → String → Bool) (mgr : RuleSetManager)
    (base : List (String × DomainMatcher)) (domain : String) :
    List String → RRes Bool
  | [] => .ok false
  | id :: rest =>
    match mgr.get_domain_set id with
    | none => domain_sets_verdict rIM mgr base domain rest
    | some ds =>
      match domain_set_verdict rIM base domain ds with
      | .panicked => .panicked
      | .ok true => .ok true
      | .ok false => domain_sets_verdict rIM mgr base domain rest

/-- Pure rule walk: outbound of the first matching rule. -/
def walk_domain_pure (rIM : String → String → Bool) (mgr : RuleSetManager)
    (base : List (String × DomainMatcher)) (domain : String) :
    List RouteRule → RRes (Option String)
  | [] => .ok none
  | r :: rest =>
    match domain_sets_verdict rIM mgr base domain r.rule_sets with
    | .panicked => .panicked
    | .ok true => .ok (some r.outbound)
    | .ok false => walk_domain_pure rIM mgr base domain rest

/-- The query outcome determined by the rules and a base matcher cache. -/
def domain_route_result (rIM : String → String → Bool)
    (router : HighPerformanceRouter) (base : List (String × DomainMatcher))
    (domain : String) : RRes String :=
  match walk_domain_pure rIM router.rule_manager base domain router.rules with
  | .panicked => .panicked
  | .ok (some ob) => .ok ob
  | .ok none => .ok router.default_outbound

/-- Pure verdict of one IP rule set against a fixed base cache. -/
def ip_set_verdict (base : List (String × IpMatcher)) (ip : IpAddrT)
    (s : IpRuleSet) : RRes Bool :=
  match alookup base s.id with
  | some m => .ok (m.matches ip == MatcherResult.Match)
  | none =>
    match build_ip_matcher s with
    | .err _ => .panicked
    | .ok m => .ok (m.matches ip == MatcherResult.Match)

/-- Pure verdict of a list of IP rule-set ids. -/
def ip_sets_verdict (mgr : RuleSetManager) (base : List (String × IpMatcher))
    (ip : IpAddrT) : List String → RRes Bool
  | [] => .ok false
  | id :: rest =>
    match mgr.get_ip_set id with
    | none => ip_sets_verdict mgr base ip rest
    | some s =>
      match ip_set_verdict base ip s with
      | .panicked => .panicked
      | .ok true => .ok true
      | .ok false => ip_sets_verdict mgr base ip rest

/-- Pure IP rule walk. -/
def walk_ip_pure (mgr : RuleSetManager) (base : List (String × IpMatcher))
    (ip : IpAddrT) : List RouteRule → RRes (Option String)
  | [] => .ok none
  | r :: rest =>
    match ip_sets_verdict mgr base ip r.rule_sets with
    | .panicked => .panicked
    | .ok true => .ok (some r.outbound)
    | .ok false => walk_ip_pure mgr base ip rest

/-- The IP query outcome determined by the rules and a base matcher cache. -/
def ip_route_result (router : HighPerformanceRouter)
    (base : List (String × IpMatcher)) (ip : IpAddrT) : RRes String :=
  match walk_ip_pure router.rule_manager base ip router.rules with
  | .panicked => .panicked
  | .ok (some ob) => .ok ob
  | .ok none => .ok router.default_outbound

/-- `cur` is a coherent extension of `base`: it keeps every binding of `base`
and any new binding is the matcher freshly built from the manager's current
content for that id — exactly the inserts a rule walk performs. -/
def DmExt (rIM : String → String → Bool) (mgr : RuleSetManager)
    (base cur : List (String × DomainMatcher)) : Prop :=
  (∀ k m, alookup base k = some m → alookup cur k = some m) ∧
  (∀ k m, alookup cur k = some m → alookup base k = some m ∨
    (alookup base k = none ∧
      ∃ ds, mgr.get_domain_set k = some ds ∧ build_domain_matcher rIM ds = .ok m))

/-- Coherent extension for the IP matcher cache. -/
def IpExt (mgr : RuleSetManager) (base cur : List (String × IpMatcher)) : Prop :=
  (∀ k m, alookup base k = some m → alookup cur k = some m) ∧
  (∀ k m, alookup cur k = some m → alookup base k = some m ∨
    (alookup base k = none ∧
      ∃ s, mgr.get_ip_set k = some s ∧ build_ip_matcher s = .ok m))

/- ## Spec-side routing contract

These definitions follow the specification's words — "rules are evaluated in
declaration order; first matching rule wins (OR semantics across a rule's
rule sets); a query matching no rule returns the configured default
outbound" — for comparison with the source-derived `select_outbound_for_*`. -/

/-- Spec side: a rule set matches a domain when the matcher compiled from its
content reports `Match`. -/
def spec_domain_set_matches (rIM : String → String → Bool) (ds : DomainRuleSet)
    (domain : String) : Bool :=
  match build_domain_matcher rIM ds with
  | .ok m => m.matches domain == MatcherResult.Match
  | .err _ => false

/-- Spec side: a rule matches a domain when any of its referenced rule sets
(those registered in the store) matches it. -/
def spec_rule_matches_domain (rIM : String → String → Bool)
    (mgr : RuleSetManager) (rule : RouteRule) (domain : String) : Bool :=
  rule.rule_sets.any (fun id =>
    match mgr.get_domain_set id with
    | some ds => spec_domain_set_matches rIM ds domain
    | none => false)

/-- Spec side: the outbound of the first rule in declaration order that
matches the domain, else the default outbound. -/
def spec_select_outbound_for_domain (rIM : String → String → Bool)
    (router : HighPerformanceRouter) (domain : String) : String :=
  match router.rules.find? (fun r =>
      spec_rule_matches_domain rIM router.rule_manager r domain) with
  | some r => r.outbound
  | none => router.default_outbound

/-- Spec side: an IP rule set matches when its compiled matcher reports
`Match`. -/
def spec_ip_set_matches (s : IpRuleSet) (ip : IpAddrT) : Bool :=
  match build_ip_matcher s with
  | .ok m => m.matches ip == MatcherResult.Match
  | .err _ => false

/-- Spec side: a rule matches an IP when any referenced rule set does. -/
def spec_rule_matches_ip (mgr : RuleSetManager) (rule : RouteRule)
    (ip : IpAddrT) : Bool :=
  rule.rule_sets.any (fun id =>
    match mgr.get_ip_set id with
    | some s => spec_ip_set_matches s ip
    | none => false)

/-- Spec side: first matching rule's outbound for an IP, else the default. -/
def spec_select_outbound_for_ip (router : HighPerformanceRouter)
    (ip : IpAddrT) : String :=
  match router.rules.find? (fun r =>
      spec_rule_matches_ip router.rule_manager r ip) with
  | some r => r.outbound
  | none => router.default_outbound

/- ## `src/connection_pool.rs`

Targets are abstracted to `Nat` (socket addresses) and `Instant` to a `Nat`
clock `now`; a dial's outcome (`TcpStream::connect` under the connect
timeout) is supplied as an oracle argument. -/

/-- `PooledConnection` (connection_pool.rs:26); the stream itself carries no
information the pool logic inspects. -/
structure PooledConnection where
  target_addr : Nat
  created_at : Nat
  last_used : Nat
deriving DecidableEq

/-- `PooledConnection::is_expired` (connection_pool.rs:44):
`last_used.elapsed() > idle_timeout`. -/
def PooledConnection.is_expired (c : PooledConnection) (idle_timeout now : Nat) :
    Bool :=
  idle_timeout < now - c.last_used

/-- `ConnectionPool` configuration (connection_pool.rs:12).  The semaphore is
created with `max_total_connections` permits (connection_pool.rs:73); its
current permit count lives in `PoolState`. -/
structure ConnectionPool where
  max_connections_per_target : Nat
  max_total_connections : Nat
  idle_timeout : Nat

/-- The pool's mutable state: the semaphore's available permits and the
per-target connection vectors. -/
structure PoolState where
  available_permits : Nat
  pools : List (Nat × List PooledConnection)
deriving DecidableEq

/-- `ConnectionPool::get_from_pool` (connection_pool.rs:127): drop expired
entries of the target's vector, then `Vec::pop` (the last element). -/
def get_from_pool (cfg : ConnectionPool) (st : PoolState) (target now : Nat) :
    Option PooledConnection × PoolState :=
  match alookup st.pools target with
  | none => (none, st)
  | some pool =>
    let pool' := pool.filter (fun c => !(c.is_expired cfg.idle_timeout now))
    match pool'.getLast? with
    | some c => (some c, { st with pools := ainsert st.pools target pool'.dropLast })
    | none => (none, { st with pools := ainsert st.pools target pool' })

/-- Outcome of `ConnectionPool::get_connection`; `wouldBlock` models
`semaphore.acquire().await` suspending because no permit is available. -/
inductive GetConnResult where
  | reused (c : PooledConnection) (st : PoolState)
  | dialed (c : PooledConnection) (st : PoolState)
  | wouldBlock
  | failed (e : String) (st : PoolState)
deriving DecidableEq

/-- `ConnectionPool::get_connection` (connection_pool.rs:79): reuse a pooled
connection if one is available (no semaphore interaction); otherwise acquire
an admission permit and dial.  The permit is bound to `let _permit`, a guard
that is dropped — returning the permit to the semaphore — when
`get_connection` returns, on the success path and the failure path alike, so
`available_permits` is restored in every completed outcome. -/
def ConnectionPool.get_connection (cfg : ConnectionPool) (st : PoolState)
    (target now : Nat) (dial : RustResult String Unit) : GetConnResult :=
  match get_from_pool cfg st target now with
  | (some c, st₂) => .reused c st₂
  | (none, st₂) =>
    if st₂.available_permits = 0 then .wouldBlock
    else
      let permits_while_held := st₂.available_permits - 1
      match dial with
      | .err e => .failed e { st₂ with available_permits := permits_while_held + 1 }
      | .ok _ => .dialed { target_addr := target, created_at := now, last_used := now }
          { st₂ with available_permits := permits_while_held + 1 }

/-- `ConnectionPool::return_connection` (connection_pool.rs:102): drop the
connection if idle-expired; else refresh `last_used` and push it onto the
target's vector when that vector has spare capacity.  No code path touches
the semaphore. -/
def ConnectionPool.return_connection (cfg : ConnectionPool) (st : PoolState)
    (c : PooledConnection) (now : Nat) : PoolState :=
  if c.is_expired cfg.idle_timeout now then st
  else
    let c' := { c with last_used := now }
    let pool := (alookup st.pools c.target_addr).getD []
    if pool.length < cfg.max_connections_per_target
    then { st with pools := ainsert st.pools c.target_addr (pool ++ [c']) }
    else { st with pools := ainsert st.pools c.target_addr pool }

/- ## `src/zero_copy.rs` -/

/-- `futures::future::try_join` on the two completed direction outcomes:
`Ok` of the pair when both succeed, otherwise the error. -/
def try_join {ε α β : Type} (a : RustResult ε α) (b : RustResult ε β) :
    RustResult ε (α × β) :=
  match a, b with
  | .ok x, .ok y => .ok (x, y)
  | .err e, _ => .err e
  | _, .err e => .err e

/-- `ZeroCopyRelay::relay_data` (zero_copy.rs:54) driven by a script of
`read_buf` results (`Err` = read error, `Ok 0` = end of stream, an exhausted
script counts as end of stream); the write side is modelled as always writing
the buffer out in full, write-side failures being covered by quantifying over
direction outcomes in the theorem about `ZeroCopyRelay.start`. -/
def relay_data : List (RustResult String Nat) → RustResult String Unit
  | [] => .ok ()
  | .err e :: _ => .err e
  | .ok 0 :: _ => .ok ()
  | .ok (_ + 1) :: rest => relay_data rest

/-- `ZeroCopyRelay::start` (zero_copy.rs:31) as a function of the two
directions' outcomes: `try_join` them, and return `Ok(())` in the `Ok` arm
and in the `Err` arm alike (the error is only logged at debug level). -/
def ZeroCopyRelay.start (client_to_target target_to_client : RustResult String Unit) :
    RustResult String Unit :=
  match try_join client_to_target target_to_client with
  | .ok _ => .ok ()
  | .err _ => .ok ()

/- ## `src/error.rs`, `src/protocol.rs`, `src/proxy.rs` -/

/-- `ProxyError` (error.rs:4); `Io` keeps only the rendered message. -/
inductive ProxyError where
  | Io (msg : String)
  | Protocol (msg : String)
  | AuthFailed
  | UnsupportedCommand (c : Nat)
  | InvalidAddressType (t : Nat)
  | ConnectionFailed (msg : String)
  | DnsResolution (msg : String)
deriving DecidableEq

/-- Result of wire parsing: success, a returned `ProxyError`, or a Rust panic
(a `bytes::Buf` advance past the end of the buffer). -/
inductive PResult (α : Type) where
  | ok (a : α)
  | err (e : ProxyError)
  | panicked
deriving DecidableEq

instance : Monad PResult where
  pure := .ok
  bind r f :=
    match r with
    | .ok a => f a
    | .err e => .err e
    | .panicked => .panicked

/-- `bytes::Buf::get_u8`: panics when no byte remains. -/
def get_u8 : List Nat → PResult (Nat × List Nat)
  | [] => .panicked
  | b :: rest => .ok (b, rest)

/-- `bytes::Buf::get_u16` (big-endian): panics when fewer than two bytes
remain. -/
def get_u16 : List Nat → PResult (Nat × List Nat)
  | a :: b :: rest => .ok (a * 256 + b, rest)
  | _ => .panicked

/-- `bytes::Buf::copy_to_slice` into a buffer of length `n`: panics when
fewer than `n` bytes remain. -/
def copy_to_slice (n : Nat) (buf : List Nat) : PResult (List Nat × List Nat) :=
  if n ≤ buf.length then .ok (buf.take n, buf.drop n) else .panicked

/-- `String::from_utf8`, modelled on the ASCII subset (no property below
exercises a non-ASCII domain): bytes ≥ 0x80 are conservatively rejected. -/
def string_from_utf8 (bs : List Nat) : Option String :=
  if bs.all (fun b => b < 128) then some (String.mk (bs.map Char.ofNat)) else none

/-- `Address` (protocol.rs:7). -/
inductive Address where
  | V4 (o1 o2 o3 o4 : Nat)
  | V6 (bytes : List Nat)
  | Domain (s : String)
deriving DecidableEq

/-- `Address::from_bytes` (protocol.rs:14): read the address-type byte, then
the encoded address and the port; an unknown address type is a returned
`InvalidAddressType` error, but a buffer that ends inside the address or port
panics via the `Buf` getters. -/
def Address.from_bytes (buf : List Nat) : PResult ((Address × Nat) × List Nat) := do
  let (addr_type, b0) ← get_u8 buf
  if addr_type = 1 then do
    let (o1, b1) ← get_u8 b0
    let (o2, b2) ← get_u8 b1
    let (o3, b3) ← get_u8 b2
    let (o4, b4) ← get_u8 b3
    let (port, b5) ← get_u16 b4
    return ((Address.V4 o1 o2 o3 o4, port), b5)
  else if addr_type = 3 then do
    let (len, b1) ← get_u8 b0
    let (dom, b2) ← copy_to_slice len b1
    match string_from_utf8 dom with
    | none => PResult.err (.Protocol "Invalid domain name")
    | some s => do
      let (port, b3) ← get_u16 b2
      return ((Address.Domain s, port), b3)
  else if addr_type = 4 then do
    let (ipb, b1) ← copy_to_slice 16 b0
    let (port, b2) ← get_u16 b1
    return ((Address.V6 ipb, port), b2)
  else PResult.err (.InvalidAddressType addr_type)

/-- `Socks5Request` (protocol.rs:66). -/
structure Socks5Request where
  command : Nat
  address : Address
  port : Nat
deriving DecidableEq

/-- `Socks5Request::from_bytes` (protocol.rs:73): an initial length check
(`< 4` is a returned protocol error), then version and command checks, the
reserved byte, and `Address::from_bytes`. -/
def Socks5Request.from_bytes (buf : List Nat) : PResult Socks5Request :=
  if buf.length < 4 then .err (.Protocol "Incomplete SOCKS5 request")
  else do
    let (version, b0) ← get_u8 buf
    if version = 5 then do
      let (command, b1) ← get_u8 b0
      if command = 1 then do
        let (_, b2) ← get_u8 b1
        let ((address, port), _) ← Address.from_bytes b2
        return { command := command, address := address, port := port }
      else PResult.err (.UnsupportedCommand command)
    else PResult.err (.Protocol "Unsupported SOCKS version")

/-- `Socks5Response` (protocol.rs:100). -/
structure Socks5Response where
  status : Nat
  address : Address
  port : Nat

/-- `Socks5Response::to_bytes` (protocol.rs:111): `[0x05, status, 0x00]`,
the atyp-tagged address, and the big-endian port.  Domain bytes are the
string's bytes (ASCII subset, as in `string_from_utf8`). -/
def Socks5Response.to_bytes (r : Socks5Response) : List Nat :=
  [5, r.status, 0] ++
  (match r.address with
   | .V4 o1 o2 o3 o4 => [1, o1, o2, o3, o4]
   | .V6 bs => 4 :: bs
   | .Domain s => 3 :: s.length :: s.data.map Char.toNat) ++
  [r.port / 256 % 256, r.port % 256]

/-- RFC 1928 REP code X'01', "general SOCKS server failure"; X'04' is
"host unreachable". -/
def socks_general_failure : Nat := 1

/-- The connect step of `Socks5Proxy::handle_connection` (proxy.rs:72-96):
on a connect error, write a SOCKS5 reply with status byte `0x04` and return
`Err(ConnectionFailed)`; on success, write the status-`0x00` reply and run
the relay (whose `start` returns `Ok` in every case).  The first component
collects the bytes written to the client. -/
def connect_phase (reqAddress : Address) (reqPort : Nat)
    (connect_result : RustResult String Unit) :
    List (List Nat) × RustResult ProxyError Unit :=
  match connect_result with
  | .err e =>
    ([(Socks5Response.mk 4 reqAddress reqPort).to_bytes],
     .err (.ConnectionFailed e))
  | .ok _ =>
    ([(Socks5Response.mk 0 reqAddress reqPort).to_bytes], .ok ())

/- ## Small observation helpers -/

/-- `Result::is_ok`. -/
def RustResult.is_ok {ε α : Type} : RustResult ε α → Bool
  | .ok _ => true
  | .err _ => false

/-- `Result::is_err`. -/
def RustResult.is_err {ε α : Type} : RustResult ε α → Bool
  | .ok _ => false
  | .err _ => true

/-- Observe a domain-matcher build through `matches` (needed because a
`DomainMatcher` carries its compiled regex function and so has no decidable
equality of its own). -/
def domain_build_matches (r : RustResult String DomainMatcher) (d : String) :
    RustResult String MatcherResult :=
  match r with
  | .ok m => .ok (m.matches d)
  | .err e => .err e

/-- Observe an IP-matcher build through `matches`. -/
def ip_build_matches (r : RustResult String IpMatcher) (ip : IpAddrT) :
    RustResult String MatcherResult :=
  match r with
  | .ok m => .ok (m.matches ip)
  | .err e => .err e

/- ## Concrete fixtures used by counterexamples and witnesses -/

/-- Abstract regex engine instance used at concrete inputs; every concrete
rule set below has an empty `domain_regex` list (or never reaches matching),
so the engine's behaviour is irrelevant. -/
def rIM0 : String → String → Bool := fun _ _ => false

/-- An empty matcher cache. -/
def mcache_empty : MatcherCache := { domain_matchers := [], ip_matchers := [] }

/-- A fresh router state (matcher cache and decision cache empty, decision
cache capacity 10000 as in `HighPerformanceRouter::new`). -/
def rstate_empty : RouterState :=
  { matcher_cache := mcache_empty
    match_cache := { domain_cache := [], ip_cache := [], max_size := 10000 } }

/-- A rule set whose `domain_regex` list contains the malformed pattern
`"("` (rejected by `RegexSet::new`). -/
def ds_bad_regex : DomainRuleSet :=
  { id := "badset", domain := [], domain_suffix := [], domain_keyword := []
    domain_regex := ["("] }

/-- A router whose single rule references the malformed rule set, with the
set registered through `RuleSetManager::add_domain_set`. -/
def router_bad_regex : HighPerformanceRouter :=
  { rule_manager := (RuleSetManager.mk [] []).add_domain_set ds_bad_regex
    rules := [{ rule_sets := ["badset"], outbound := "proxy" }]
    default_outbound := "direct" }

/-- First registered content of rule-set id `"s"` (exact domain `a.com`). -/
def ds_a : DomainRuleSet :=
  { id := "s", domain := ["a.com"], domain_suffix := [], domain_keyword := []
    domain_regex := [] }

/-- Replacement content of rule-set id `"s"` (exact domain `b.com`). -/
def ds_b : DomainRuleSet :=
  { id := "s", domain := ["b.com"], domain_suffix := [], domain_keyword := []
    domain_regex := [] }

/-- The matcher `DomainMatcher::new` compiles from `ds_a`'s content. -/
def matcher_a : DomainMatcher :=
  { exact_domains := ["a.com"], suffix_domains := [], keyword_matcher := []
    regex_matcher := fun d => List.any [] (fun p => rIM0 p d) }

/-- A matcher cache already holding `matcher_a` under id `"s"`. -/
def mcache_a : MatcherCache := { domain_matchers := [("s", matcher_a)], ip_matchers := [] }

/-- Rule set for the refinement witness: exact domain `example.com`. -/
def ds_w : DomainRuleSet :=
  { id := "A", domain := ["example.com"], domain_suffix := [], domain_keyword := []
    domain_regex := [] }

/-- IP rule set for the refinement witness: CIDR `10.0.0.0/8`. -/
def ips_w : IpRuleSet :=
  { id := "B", ip_cidr := [some { v6 := false, addr := 10 * 2 ^ 24, plen := 8 }] }

/-- Router for the refinement witness: one domain rule, one IP rule. -/
def router_w : HighPerformanceRouter :=
  { rule_manager := { domain_sets := [ds_w], ip_sets := [ips_w] }
    rules := [{ rule_sets := ["A"], outbound := "x" },
              { rule_sets := ["B"], outbound := "y" }]
    default_outbound := "direct" }

/-- Pool configuration for the admission-control analysis:
one total admission permit. -/
def cfg_one : ConnectionPool :=
  { max_connections_per_target := 10, max_total_connections := 1, idle_timeout := 100 }

/-- Pool state as created by `ConnectionPool::new` with `cfg_one`: one
available permit, no pooled connections. -/
def pst_one : PoolState := { available_permits := 1, pools := [] }

/- # Theorems -/

/-- C1.  The claim says a suffix entry `"google.com"` makes
`DomainMatcher::matches` report `Match` on `"www.google.com"`.  It does not:
the suffix check tests exact membership of the reversed domain in the
reversed-suffix FST, so only the literal string `"google.com"` matches.  This
theorem evaluates the matcher of the claim's own example (suffix list
`["google.com"]`, no exact/keyword/regex entries) at the failing input
`"www.google.com"` (the code returns `NoMatch`; the claim — and the crate's
own `test_domain_matcher` — demand `Match`) and at `"google.com"` (equality
still matches). -/
theorem c1_suffix_rule_is_exact_reversed_membership :
    domain_build_matches (DomainMatcher.new [] ["google.com"] [] [] rIM0)
        "www.google.com" = .ok MatcherResult.NoMatch ∧
    domain_build_matches (DomainMatcher.new [] ["google.com"] [] [] rIM0)
        "google.com" = .ok MatcherResult.Match := by
  decide

/-- C2.  The claim says an `IpMatcher` built from `192.168.0.0/16` reports
`Match` on `192.168.1.1`.  It does not: every stored trie key is a full
32-bit value ( the masked network address), every query key is the full
32-bit address, and `get_ancestor` requires a stored key's fixed-length
encoding to be a prefix of the query's — which for equal-length keys is
equality.  The code therefore answers `NoMatch` for `192.168.1.1` (the claim
and the crate's own `test_ip_matcher` demand `Match`) and `Match` only for
the exact masked address `192.168.0.0`. -/
theorem c2_ipv4_trie_matches_only_exact_masked_address :
    ip_build_matches
        (IpMatcher.new [some { v6 := false, addr := 192 * 2 ^ 24 + 168 * 2 ^ 16, plen := 16 }])
        (.v4 (192 * 2 ^ 24 + 168 * 2 ^ 16 + 2 ^ 8 + 1)) = .ok MatcherResult.NoMatch ∧
    ip_build_matches
        (IpMatcher.new [some { v6 := false, addr := 192 * 2 ^ 24 + 168 * 2 ^ 16, plen := 16 }])
        (.v4 (192 * 2 ^ 24 + 168 * 2 ^ 16)) = .ok MatcherResult.Match := by
  decide

/-- C3.  The claim says that with `max_total_connections = 1`, after one
connection has been handed out by `get_connection` and not returned, a
further `get_connection` that needs a new dial blocks or fails until a
release.  It does not: the admission permit is bound to `let _permit`, whose
guard is dropped — restoring the permit — when `get_connection` returns, so
the post-state of the first successful dial is `pst_one` again (one available
permit) and a second dial, with no `return_connection` in between, proceeds
immediately instead of blocking or failing. -/
theorem c3_admission_permit_released_when_get_connection_returns :
    ConnectionPool.get_connection cfg_one pst_one 7 0 (.ok ()) =
      .dialed { target_addr := 7, created_at := 0, last_used := 0 } pst_one ∧
    ConnectionPool.get_connection cfg_one pst_one 7 1 (.ok ()) =
      .dialed { target_addr := 7, created_at := 1, last_used := 1 } pst_one := by
  decide

/-- C6 counterexample.  A rule set whose `domain_regex` contains the
malformed pattern `"("` is accepted into the store, and the very first
`select_outbound_for_domain` query that consults it panics (the `.unwrap()`
in `matches_domain_set` on the failed `RegexSet` build) — refuting the
claim that such a configuration can never surface as a runtime failure of an
individual query. -/
theorem c6_invalid_regex_panics_inside_select :
    (select_outbound_for_domain rIM0 router_bad_regex rstate_empty "example.com").1
      = .panicked := by
  decide

/-- C6 amended.  Registration performs no validation — the malformed rule set
is stored as-is — the matcher build for it fails, and the failure surfaces
only at query time, as a panic of the `select_outbound_for_domain` call that
first consults the set. -/
theorem c6_malformed_ruleset_accepted_at_registration_panics_at_query :
    ((RuleSetManager.mk [] []).add_domain_set ds_bad_regex).get_domain_set "badset"
        = some ds_bad_regex ∧
    (build_domain_matcher rIM0 ds_bad_regex).is_err = true ∧
    (select_outbound_for_domain rIM0 router_bad_regex rstate_empty "example.com").1
        = .panicked := by
  decide

/-- C7 counterexample.  Register id `"s"` with exact domain `a.com`; one
query builds and caches its matcher.  Replace the set under the same id with
exact domain `b.com`: the store returns the new content, but a query for
`"b.com"` against that id still answers through the cached old matcher and
reports no match, even though a matcher built from the new content reports
`Match` — refuting the claim that replacement invalidates the cached
matcher. -/
theorem c7_replaced_ruleset_still_answered_by_stale_matcher :
    (((RuleSetManager.mk [] []).add_domain_set ds_a).add_domain_set ds_b).get_domain_set "s"
        = some ds_b ∧
    (matches_domain_set rIM0 (matches_domain_set rIM0 mcache_empty "a.com" ds_a).2
        "b.com" ds_b).1 = .ok false ∧
    domain_build_matches (build_domain_matcher rIM0 ds_b) "b.com"
        = .ok MatcherResult.Match := by
  decide

/-- C7 amended.  `MatcherCache::get_domain_matcher` never invalidates: while
a matcher is cached under an id, the call returns it unchanged and ignores
the rule-set content supplied with the call, so queries for that id keep
being answered by the matcher built from the old content. -/
theorem c7_cached_matcher_ignores_supplied_content :
    ∀ (mc : MatcherCache) (key : String) (m : DomainMatcher)
      (exact suffix keyword regex : List String) (rIM : String → String → Bool),
      alookup mc.domain_matchers key = some m →
      mc.get_domain_matcher key exact suffix keyword regex rIM = .ok (m, mc) := by
  intro mc key m exact suffix keyword regex rIM h
  unfold MatcherCache.get_domain_matcher
  rw [h]

/-- Witness for the C7 amended theorem: a cache holding `matcher_a` under
`"s"` returns `matcher_a` unchanged even when handed `ds_b`'s content. -/
theorem c7_cached_matcher_ignores_supplied_content_witness :
    alookup mcache_a.domain_matchers "s" = some matcher_a ∧
    mcache_a.get_domain_matcher "s" ds_b.domain ds_b.domain_suffix
        ds_b.domain_keyword ds_b.domain_regex rIM0 = .ok (matcher_a, mcache_a) :=
  ⟨rfl, c7_cached_matcher_ignores_supplied_content mcache_a "s" matcher_a
      ds_b.domain ds_b.domain_suffix ds_b.domain_keyword ds_b.domain_regex rIM0 rfl⟩

/-- C8.  `ZeroCopyRelay::start` reports completion only once `try_join` has
resolved both copy directions, and maps the joined outcome to `Ok(())` in
the success arm and the error arm alike: an I/O error in either direction
(any combination of direction outcomes) is never returned as a failure of
the relay. -/
theorem c8_relay_start_succeeds_for_all_direction_outcomes :
    ∀ (client_to_target target_to_client : RustResult String Unit),
      ZeroCopyRelay.start client_to_target target_to_client = .ok () := by
  intro a b
  cases a <;> cases b <;> rfl

/-- C9 counterexample.  At a failed upstream connect, the reply actually
written to the client carries status byte `0x04` ("host unreachable"), not
the general-failure code `0x01` the claim names. -/
theorem c9_failure_reply_status_is_not_general_failure :
    (connect_phase (Address.V4 127 0 0 1) 80 (.err "refused")).1
        = [[5, 4, 0, 1, 127, 0, 0, 1, 0, 80]] ∧
    socks_general_failure = 1 ∧
    ¬ ((4 : Nat) = socks_general_failure) := by
  decide

/-- C9 amended.  When connecting the upstream fails after the request was
parsed, the server sends the client a SOCKS5 failure reply whose status byte
is `0x04` (host unreachable — a non-zero failure code, though not the
general-failure code `0x01`), then closes the connection with a
connection-failed error. -/
theorem c9_connect_failure_sends_status_4_then_connection_failed :
    ∀ (a : Address) (port : Nat) (e : String),
      connect_phase a port (.err e) =
        ([(Socks5Response.mk 4 a port).to_bytes],
         .err (ProxyError.ConnectionFailed e)) ∧
      ((Socks5Response.mk 4 a port).to_bytes).get? 1 = some 4 ∧
      ¬ ((4 : Nat) = 0) := by
  intro a port e
  exact ⟨rfl, rfl, by decide⟩

/-- C10.  The SOCKS5 request parser is not total on truncated input: the
buffer `[0x05, 0x01, 0x00, 0x01]` passes the length (≥ 4), version (0x05)
and command (0x01) checks, but ends right after the IPv4 address-type byte,
and `Socks5Request::from_bytes` panics (a `bytes::Buf` advance past the end
of the buffer, inside `Address::from_bytes`) instead of returning a protocol
error. -/
theorem c10_truncated_request_panics_instead_of_erroring :
    ∃ buf : List Nat, 4 ≤ buf.length ∧ buf.get? 0 = some 5 ∧ buf.get? 1 = some 1 ∧
      Socks5Request.from_bytes buf = .panicked ∧
      Address.from_bytes (buf.drop 3) = .panicked :=
  ⟨[5, 1, 0, 1], by decide⟩

/- ## Cache-coherence lemmas for the router walk (domain side) -/

theorem alookup_append_some {κ α : Type} [DecidableEq κ] {l₁ : List (κ × α)}
    (l₂ : List (κ × α)) {k : κ} {v : α} (h : alookup l₁ k = some v) :
    alookup (l₁ ++ l₂) k = some v := by
  induction l₁ with
  | nil => simp [alookup] at h
  | cons p rest ih =>
    cases p with
    | mk a b =>
      by_cases hk : a = k
      · simp [alookup, hk] at h ⊢
        exact h
      · simp [alookup, hk] at h ⊢
        exact ih h

theorem alookup_append_none {κ α : Type} [DecidableEq κ] {l₁ : List (κ × α)}
    (l₂ : List (κ × α)) {k : κ} (h : alookup l₁ k = none) :
    alookup (l₁ ++ l₂) k = alookup l₂ k := by
  induction l₁ with
  | nil => simp [alookup]
  | cons p rest ih =>
    cases p with
    | mk a b =>
      by_cases hk : a = k
      · simp [alookup, hk] at h
      · simp [alookup, hk] at h ⊢
        exact ih h

theorem get_domain_set_eq_id {mgr : RuleSetManager} {k : String}
    {ds : DomainRuleSet} (h : mgr.get_domain_set k = some ds) : ds.id = k := by
  unfold RuleSetManager.get_domain_set at h
  have hp := List.find?_some h
  simpa using hp

theorem get_domain_set_again {mgr : RuleSetManager} {k : String}
    {ds : DomainRuleSet} (h : mgr.get_domain_set k = some ds) :
    mgr.get_domain_set ds.id = some ds := by
  rwa [get_domain_set_eq_id h]

theorem get_ip_set_eq_id {mgr : RuleSetManager} {k : String}
    {s : IpRuleSet} (h : mgr.get_ip_set k = some s) : s.id = k := by
  unfold RuleSetManager.get_ip_set at h
  have hp := List.find?_some h
  simpa using hp

theorem get_ip_set_again {mgr : RuleSetManager} {k : String}
    {s : IpRuleSet} (h : mgr.get_ip_set k = some s) :
    mgr.get_ip_set s.id = some s := by
  rwa [get_ip_set_eq_id h]

theorem dmExt_refl (rIM : String → String → Bool) (mgr : RuleSetManager)
    (b : List (String × DomainMatcher)) : DmExt rIM mgr b b :=
  ⟨fun _ _ h => h, fun _ _ h => Or.inl h⟩

theorem ipExt_refl (mgr : RuleSetManager) (b : List (String × IpMatcher)) :
    IpExt mgr b b :=
  ⟨fun _ _ h => h, fun _ _ h => Or.inl h⟩

theorem matches_domain_set_hit {rIM : String → String → Bool}
    {cur : MatcherCache} {domain : String} {ds : DomainRuleSet}
    {m : DomainMatcher} (h : alookup cur.domain_matchers ds.id = some m) :
    matches_domain_set rIM cur domain ds =
      (.ok (m.matches domain == MatcherResult.Match), cur) := by
  unfold matches_domain_set MatcherCache.get_domain_matcher
  rw [h]

theorem matches_domain_set_miss_ok {rIM : String → String → Bool}
    {cur : MatcherCache} {domain : String} {ds : DomainRuleSet}
    {m : DomainMatcher} (h : alookup cur.domain_matchers ds.id = none)
    (hb : build_domain_matcher rIM ds = .ok m) :
    matches_domain_set rIM cur domain ds =
      (.ok (m.matches domain == MatcherResult.Match),
       { cur with domain_matchers := cur.domain_matchers ++ [(ds.id, m)] }) := by
  unfold matches_domain_set MatcherCache.get_domain_matcher
  unfold build_domain_matcher at hb
  rw [h, hb]

theorem matches_domain_set_miss_err {rIM : String → String → Bool}
    {cur : MatcherCache} {domain : String} {ds : DomainRuleSet}
    {e : String} (h : alookup cur.domain_matchers ds.id = none)
    (hb : build_domain_matcher rIM ds = .err e) :
    matches_domain_set rIM cur domain ds = (.panicked, cur) := by
  unfold matches_domain_set MatcherCache.get_domain_matcher
  unfold build_domain_matcher at hb
  rw [h, hb]

theorem matches_domain_set_verdict {rIM : String → String → Bool}
    {mgr : RuleSetManager} {base : List (String × DomainMatcher)}
    (cur : MatcherCache) (domain : String) {ds : DomainRuleSet}
    (hext : DmExt rIM mgr base cur.domain_matchers)
    (hds : mgr.get_domain_set ds.id = some ds) :
    (matches_domain_set rIM cur domain ds).1 = domain_set_verdict rIM base domain ds ∧
    DmExt rIM mgr base (matches_domain_set rIM cur domain ds).2.domain_matchers ∧
    (matches_domain_set rIM cur domain ds).2.ip_matchers = cur.ip_matchers := by
  cases h1 : alookup cur.domain_matchers ds.id with
  | some m =>
    rw [matches_domain_set_hit h1]
    rcases hext.2 ds.id m h1 with hb | ⟨hb, ds', hds', hbuild⟩
    · unfold domain_set_verdict
      rw [hb]
      exact ⟨rfl, hext, rfl⟩
    · have hds2 : ds' = ds := by
        rw [hds'] at hds
        exact Option.some.inj hds
      subst hds2
      unfold domain_set_verdict
      rw [hb, hbuild]
      exact ⟨rfl, hext, rfl⟩
  | none =>
    have hb : alookup base ds.id = none := by
      cases h2 : alookup base ds.id with
      | none => rfl
      | some m =>
        rw [hext.1 ds.id m h2] at h1
        cases h1
    cases h3 : build_domain_matcher rIM ds with
    | err e =>
      rw [matches_domain_set_miss_err h1 h3]
      unfold domain_set_verdict
      rw [hb, h3]
      exact ⟨rfl, hext, rfl⟩
    | ok m =>
      rw [matches_domain_set_miss_ok h1 h3]
      unfold domain_set_verdict
      rw [hb, h3]
      refine ⟨rfl, ⟨?_, ?_⟩, rfl⟩
      · intro k m' h'
        exact alookup_append_some _ (hext.1 k m' h')
      · intro k m' h'
        cases h4 : alookup cur.domain_matchers k with
        | some v =>
          have h5 := alookup_append_some [(ds.id, m)] h4
          rw [h5] at h'
          injection h' with h6
          subst h6
          exact hext.2 k v h4
        | none =>
          have h5 := alookup_append_none [(ds.id, m)] h4
          rw [h5] at h'
          by_cases h6 : ds.id = k
          · subst h6
            simp only [alookup, if_pos rfl] at h'
            injection h' with h7
            subst h7
            exact Or.inr ⟨hb, ds, hds, h3⟩
          · simp only [alookup, if_neg h6] at h'
            cases h'

theorem matches_domain_sets_verdict {rIM : String → String → Bool}
    {mgr : RuleSetManager} {base : List (String × DomainMatcher)}
    {domain : String} :
    ∀ (ids : List String) (cur : MatcherCache),
      DmExt rIM mgr base cur.domain_matchers →
      (matches_domain_sets rIM mgr domain ids cur).1 =
          domain_sets_verdict rIM mgr base domain ids ∧
      DmExt rIM mgr base (matches_domain_sets rIM mgr domain ids cur).2.domain_matchers ∧
      (matches_domain_sets rIM mgr domain ids cur).2.ip_matchers = cur.ip_matchers := by
  intro ids
  induction ids with
  | nil =>
    intro cur hext
    exact ⟨rfl, hext, rfl⟩
  | cons id rest ih =>
    intro cur hext
    cases hg : mgr.get_domain_set id with
    | none =>
      simp only [matches_domain_sets, domain_sets_verdict, hg]
      exact ih cur hext
    | some ds =>
      have hds := get_domain_set_again hg
      obtain ⟨hv, hext', hip⟩ := matches_domain_set_verdict cur domain hext hds
      simp only [matches_domain_sets, domain_sets_verdict, hg]
      cases hq : matches_domain_set rIM cur domain ds with
      | mk v mc₂ =>
        rw [hq] at hv hext' hip
        cases hvv : domain_set_verdict rIM base domain ds with
        | panicked =>
          rw [hvv] at hv
          simp only at hv
          subst hv
          exact ⟨rfl, hext', hip⟩
        | ok bv =>
          rw [hvv] at hv
          simp only at hv
          subst hv
          cases bv with
          | true => exact ⟨rfl, hext', hip⟩
          | false =>
            obtain ⟨ih1, ih2, ih3⟩ := ih mc₂ hext'
            exact ⟨ih1, ih2, by rw [ih3, hip]⟩

theorem walk_domain_rules_verdict (rIM : String → String → Bool)
    (mgr : RuleSetManager) (base : List (String × DomainMatcher))
    (domain : String) :
    ∀ (rules : List RouteRule) (cur : MatcherCache),
      DmExt rIM mgr base cur.domain_matchers →
      (walk_domain_rules rIM mgr domain rules cur).1 =
          walk_domain_pure rIM mgr base domain rules ∧
      DmExt rIM mgr base (walk_domain_rules rIM mgr domain rules cur).2.domain_matchers ∧
      (walk_domain_rules rIM mgr domain rules cur).2.ip_matchers = cur.ip_matchers := by
  intro rules
  induction rules with
  | nil =>
    intro cur hext
    exact ⟨rfl, hext, rfl⟩
  | cons r rest ih =>
    intro cur hext
    obtain ⟨hv, hext', hip⟩ := matches_domain_sets_verdict r.rule_sets cur hext
    simp only [walk_domain_rules, walk_domain_pure, matches_domain_rule]
    cases hq : matches_domain_sets rIM mgr domain r.rule_sets cur with
    | mk v mc₂ =>
      rw [hq] at hv hext' hip
      cases hvv : domain_sets_verdict rIM mgr base domain r.rule_sets with
      | panicked =>
        rw [hvv] at hv
        simp only at hv
        subst hv
        exact ⟨rfl, hext', hip⟩
      | ok bv =>
        rw [hvv] at hv
        simp only at hv
        subst hv
        cases bv with
        | true => exact ⟨rfl, hext', hip⟩
        | false =>
          obtain ⟨ih1, ih2, ih3⟩ := ih mc₂ hext'
          exact ⟨ih1, ih2, by rw [ih3, hip]⟩

theorem select_domain_verdict (rIM : String → String → Bool)
    (router : HighPerformanceRouter) (st : RouterState) (domain : String)
    (base : List (String × DomainMatcher))
    (hext : DmExt rIM router.rule_manager base st.matcher_cache.domain_matchers) :
    (select_outbound_for_domain rIM router st domain).1 =
        domain_route_result rIM router base domain ∧
    DmExt rIM router.rule_manager base
        (select_outbound_for_domain rIM router st domain).2.matcher_cache.domain_matchers ∧
    (select_outbound_for_domain rIM router st domain).2.matcher_cache.ip_matchers =
        st.matcher_cache.ip_matchers := by
  obtain ⟨hv, hext', hip⟩ :=
    walk_domain_rules_verdict rIM router.rule_manager base domain
      router.rules st.matcher_cache hext
  unfold select_outbound_for_domain domain_route_result
  cases hq : walk_domain_rules rIM router.rule_manager domain router.rules st.matcher_cache with
  | mk v mc₂ =>
    rw [hq] at hv hext' hip
    cases hmc : st.match_cache.get_domain domain with
    | some r =>
      cases r with
      | Match =>
        simp only [hmc, hq]
        rw [← hv]
        cases v with
        | panicked => exact ⟨rfl, hext', hip⟩
        | ok o =>
          cases o with
          | some ob => exact ⟨rfl, hext', hip⟩
          | none => exact ⟨rfl, hext', hip⟩
      | NoMatch =>
        simp only [hmc, hq]
        rw [← hv]
        cases v with
        | panicked => exact ⟨rfl, hext', hip⟩
        | ok o =>
          cases o with
          | some ob => exact ⟨rfl, hext', hip⟩
          | none => exact ⟨rfl, hext', hip⟩
    | none =>
      simp only [hmc, hq]
      rw [← hv]
      cases v with
      | panicked => exact ⟨rfl, hext', hip⟩
      | ok o =>
        cases o with
        | some ob => exact ⟨rfl, hext', hip⟩
        | none => exact ⟨rfl, hext', hip⟩

/- ## Cache-coherence lemmas for the router walk (IP side) -/

theorem matches_ip_set_hit {cur : MatcherCache} {ip : IpAddrT} {s : IpRuleSet}
    {m : IpMatcher} (h : alookup cur.ip_matchers s.id = some m) :
    matches_ip_set cur ip s = (.ok (m.matches ip == MatcherResult.Match), cur) := by
  unfold matches_ip_set MatcherCache.get_ip_matcher
  rw [h]

theorem matches_ip_set_miss_ok {cur : MatcherCache} {ip : IpAddrT}
    {s : IpRuleSet} {m : IpMatcher} (h : alookup cur.ip_matchers s.id = none)
    (hb : build_ip_matcher s = .ok m) :
    matches_ip_set cur ip s =
      (.ok (m.matches ip == MatcherResult.Match),
       { cur with ip_matchers := cur.ip_matchers ++ [(s.id, m)] }) := by
  unfold matches_ip_set MatcherCache.get_ip_matcher
  unfold build_ip_matcher at hb
  rw [h, hb]

theorem matches_ip_set_miss_err {cur : MatcherCache} {ip : IpAddrT}
    {s : IpRuleSet} {e : String} (h : alookup cur.ip_matchers s.id = none)
    (hb : build_ip_matcher s = .err e) :
    matches_ip_set cur ip s = (.panicked, cur) := by
  unfold matches_ip_set MatcherCache.get_ip_matcher
  unfold build_ip_matcher at hb
  rw [h, hb]

theorem matches_ip_set_verdict {mgr : RuleSetManager}
    {base : List (String × IpMatcher)} (cur : MatcherCache) (ip : IpAddrT)
    {s : IpRuleSet} (hext : IpExt mgr base cur.ip_matchers)
    (hs : mgr.get_ip_set s.id = some s) :
    (matches_ip_set cur ip s).1 = ip_set_verdict base ip s ∧
    IpExt mgr base (matches_ip_set cur ip s).2.ip_matchers ∧
    (matches_ip_set cur ip s).2.domain_matchers = cur.domain_matchers := by
  cases h1 : alookup cur.ip_matchers s.id with
  | some m =>
    rw [matches_ip_set_hit h1]
    rcases hext.2 s.id m h1 with hb | ⟨hb, s', hs', hbuild⟩
    · unfold ip_set_verdict
      rw [hb]
      exact ⟨rfl, hext, rfl⟩
    · have hs2 : s' = s := by
        rw [hs'] at hs
        exact Option.some.inj hs
      subst hs2
      unfold ip_set_verdict
      rw [hb, hbuild]
      exact ⟨rfl, hext, rfl⟩
  | none =>
    have hb : alookup base s.id = none := by
      cases h2 : alookup base s.id with
      | none => rfl
      | some m =>
        rw [hext.1 s.id m h2] at h1
        cases h1
    cases h3 : build_ip_matcher s with
    | err e =>
      rw [matches_ip_set_miss_err h1 h3]
      unfold ip_set_verdict
      rw [hb, h3]
      exact ⟨rfl, hext, rfl⟩
    | ok m =>
      rw [matches_ip_set_miss_ok h1 h3]
      unfold ip_set_verdict
      rw [hb, h3]
      refine ⟨rfl, ⟨?_, ?_⟩, rfl⟩
      · intro k m' h'
        exact alookup_append_some _ (hext.1 k m' h')
      · intro k m' h'
        cases h4 : alookup cur.ip_matchers k with
        | some v =>
          have h5 := alookup_append_some [(s.id, m)] h4
          rw [h5] at h'
          injection h' with h6
          subst h6
          exact hext.2 k v h4
        | none =>
          have h5 := alookup_append_none [(s.id, m)] h4
          rw [h5] at h'
          by_cases h6 : s.id = k
          · subst h6
            simp only [alookup, if_pos rfl] at h'
            injection h' with h7
            subst h7
            exact Or.inr ⟨hb, s, hs, h3⟩
          · simp only [alookup, if_neg h6] at h'
            cases h'

theorem matches_ip_sets_verdict {mgr : RuleSetManager}
    {base : List (String × IpMatcher)} {ip : IpAddrT} :
    ∀ (ids : List String) (cur : MatcherCache),
      IpExt mgr base cur.ip_matchers →
      (matches_ip_sets mgr ip ids cur).1 = ip_sets_verdict mgr base ip ids ∧
      IpExt mgr base (matches_ip_sets mgr ip ids cur).2.ip_matchers ∧
      (matches_ip_sets mgr ip ids cur).2.domain_matchers = cur.domain_matchers := by
  intro ids
  induction ids with
  | nil =>
    intro cur hext
    exact ⟨rfl, hext, rfl⟩
  | cons id rest ih =>
    intro cur hext
    cases hg : mgr.get_ip_set id with
    | none =>
      simp only [matches_ip_sets, ip_sets_verdict, hg]
      exact ih cur hext
    | some s =>
      have hs := get_ip_set_again hg
      obtain ⟨hv, hext', hdm⟩ := matches_ip_set_verdict cur ip hext hs
      simp only [matches_ip_sets, ip_sets_verdict, hg]
      cases hq : matches_ip_set cur ip s with
      | mk v mc₂ =>
        rw [hq] at hv hext' hdm
        cases hvv : ip_set_verdict base ip s with
        | panicked =>
          rw [hvv] at hv
          simp only at hv
          subst hv
          exact ⟨rfl, hext', hdm⟩
        | ok bv =>
          rw [hvv] at hv
          simp only at hv
          subst hv
          cases bv with
          | true => exact ⟨rfl, hext', hdm⟩
          | false =>
            obtain ⟨ih1, ih2, ih3⟩ := ih mc₂ hext'
            exact ⟨ih1, ih2, by rw [ih3, hdm]⟩

theorem walk_ip_rules_verdict (mgr : RuleSetManager)
    (base : List (String × IpMatcher)) (ip : IpAddrT) :
    ∀ (rules : List RouteRule) (cur : MatcherCache),
      IpExt mgr base cur.ip_matchers →
      (walk_ip_rules mgr ip rules cur).1 = walk_ip_pure mgr base ip rules ∧
      IpExt mgr base (walk_ip_rules mgr ip rules cur).2.ip_matchers ∧
      (walk_ip_rules mgr ip rules cur).2.domain_matchers = cur.domain_matchers := by
  intro rules
  induction rules with
  | nil =>
    intro cur hext
    exact ⟨rfl, hext, rfl⟩
  | cons r rest ih =>
    intro cur hext
    obtain ⟨hv, hext', hdm⟩ := matches_ip_sets_verdict r.rule_sets cur hext
    simp only [walk_ip_rules, walk_ip_pure, matches_ip_rule]
    cases hq : matches_ip_sets mgr ip r.rule_sets cur with
    | mk v mc₂ =>
      rw [hq] at hv hext' hdm
      cases hvv : ip_sets_verdict mgr base ip r.rule_sets with
      | panicked =>
        rw [hvv] at hv
        simp only at hv
        subst hv
        exact ⟨rfl, hext', hdm⟩
      | ok bv =>
        rw [hvv] at hv
        simp only at hv
        subst hv
        cases bv with
        | true => exact ⟨rfl, hext', hdm⟩
        | false =>
          obtain ⟨ih1, ih2, ih3⟩ := ih mc₂ hext'
          exact ⟨ih1, ih2, by rw [ih3, hdm]⟩

theorem select_ip_verdict (router : HighPerformanceRouter) (st : RouterState)
    (ip : IpAddrT) (base : List (String × IpMatcher))
    (hext : IpExt router.rule_manager base st.matcher_cache.ip_matchers) :
    (select_outbound_for_ip router st ip).1 = ip_route_result router base ip ∧
    IpExt router.rule_manager base
        (select_outbound_for_ip router st ip).2.matcher_cache.ip_matchers ∧
    (select_outbound_for_ip router st ip).2.matcher_cache.domain_matchers =
        st.matcher_cache.domain_matchers := by
  obtain ⟨hv, hext', hdm⟩ :=
    walk_ip_rules_verdict router.rule_manager base ip
      router.rules st.matcher_cache hext
  unfold select_outbound_for_ip ip_route_result
  cases hq : walk_ip_rules router.rule_manager ip router.rules st.matcher_cache with
  | mk v mc₂ =>
    rw [hq] at hv hext' hdm
    cases hmc : st.match_cache.get_ip ip with
    | some r =>
      cases r with
      | Match =>
        simp only [hmc, hq]
        rw [← hv]
        cases v with
        | panicked => exact ⟨rfl, hext', hdm⟩
        | ok o =>
          cases o with
          | some ob => exact ⟨rfl, hext', hdm⟩
          | none => exact ⟨rfl, hext', hdm⟩
      | NoMatch =>
        simp only [hmc, hq]
        rw [← hv]
        cases v with
        | panicked => exact ⟨rfl, hext', hdm⟩
        | ok o =>
          cases o with
          | some ob => exact ⟨rfl, hext', hdm⟩
          | none => exact ⟨rfl, hext', hdm⟩
    | none =>
      simp only [hmc, hq]
      rw [← hv]
      cases v with
      | panicked => exact ⟨rfl, hext', hdm⟩
      | ok o =>
        cases o with
        | some ob => exact ⟨rfl, hext', hdm⟩
        | none => exact ⟨rfl, hext', hdm⟩

/-- C4.  For a fixed rule list and rule-set store, `select_outbound_for_domain`
and `select_outbound_for_ip` are deterministic and independent of
decision-cache state: from any router state, a repeated query with the same
input yields the same outcome as the first, and running `clear_cache` (which
empties the decision cache) between the queries never changes the result.
(The outcome type also covers the panic case, which is likewise
deterministic.) -/
theorem c4_select_outbound_deterministic_and_decision_cache_independent :
    ∀ (rIM : String → String → Bool) (router : HighPerformanceRouter)
      (st : RouterState) (domain : String) (ip : IpAddrT),
      ((select_outbound_for_domain rIM router
          (select_outbound_for_domain rIM router st domain).2 domain).1 =
        (select_outbound_for_domain rIM router st domain).1 ∧
       (select_outbound_for_domain rIM router
          (clear_cache (select_outbound_for_domain rIM router st domain).2) domain).1 =
        (select_outbound_for_domain rIM router st domain).1) ∧
      ((select_outbound_for_ip router
          (select_outbound_for_ip router st ip).2 ip).1 =
        (select_outbound_for_ip router st ip).1 ∧
       (select_outbound_for_ip router
          (clear_cache (select_outbound_for_ip router st ip).2) ip).1 =
        (select_outbound_for_ip router st ip).1) := by
  intro rIM router st domain ip
  have h1 := select_domain_verdict rIM router st domain
    st.matcher_cache.domain_matchers
    (dmExt_refl rIM router.rule_manager st.matcher_cache.domain_matchers)
  have h2 := select_domain_verdict rIM router
    (select_outbound_for_domain rIM router st domain).2 domain
    st.matcher_cache.domain_matchers h1.2.1
  have h3 := select_domain_verdict rIM router
    (clear_cache (select_outbound_for_domain rIM router st domain).2) domain
    st.matcher_cache.domain_matchers h1.2.1
  have g1 := select_ip_verdict router st ip st.matcher_cache.ip_matchers
    (ipExt_refl router.rule_manager st.matcher_cache.ip_matchers)
  have g2 := select_ip_verdict router
    (select_outbound_for_ip router st ip).2 ip
    st.matcher_cache.ip_matchers g1.2.1
  have g3 := select_ip_verdict router
    (clear_cache (select_outbound_for_ip router st ip).2) ip
    st.matcher_cache.ip_matchers g1.2.1
  exact ⟨⟨by rw [h2.1, h1.1], by rw [h3.1, h1.1]⟩,
         ⟨by rw [g2.1, g1.1], by rw [g3.1, g1.1]⟩⟩

/- ## Refinement of the rule walk to the spec's first-match contract -/

theorem domain_sets_verdict_empty_spec {rIM : String → String → Bool}
    {mgr : RuleSetManager} (domain : String) :
    ∀ ids : List String,
      (∀ id ∈ ids, (match mgr.get_domain_set id with
         | some ds => (build_domain_matcher rIM ds).is_ok
         | none => true) = true) →
      domain_sets_verdict rIM mgr [] domain ids =
        .ok (ids.any (fun id =>
          match mgr.get_domain_set id with
          | some ds => spec_domain_set_matches rIM ds domain
          | none => false)) := by
  intro ids
  induction ids with
  | nil => intro _; rfl
  | cons id rest ih =>
    intro h
    have hhead := h id (List.mem_cons_self id rest)
    have htail : ∀ i ∈ rest, (match mgr.get_domain_set i with
        | some ds => (build_domain_matcher rIM ds).is_ok
        | none => true) = true :=
      fun i hi => h i (List.mem_cons_of_mem _ hi)
    cases hg : mgr.get_domain_set id with
    | none =>
      simp only [domain_sets_verdict, List.any_cons, hg]
      rw [ih htail]
      simp
    | some ds =>
      simp only [hg] at hhead
      cases hb : build_domain_matcher rIM ds with
      | err e =>
        rw [hb] at hhead
        simp [RustResult.is_ok] at hhead
      | ok m =>
        have hverd : domain_set_verdict rIM [] domain ds =
            .ok (m.matches domain == MatcherResult.Match) := by
          unfold domain_set_verdict
          simp [alookup, hb]
        have hspec : spec_domain_set_matches rIM ds domain =
            (m.matches domain == MatcherResult.Match) := by
          unfold spec_domain_set_matches
          rw [hb]
        simp only [domain_sets_verdict, List.any_cons, hg, hverd, hspec]
        cases hm : (m.matches domain == MatcherResult.Match) with
        | true => simp
        | false =>
          rw [ih htail]
          simp

theorem walk_domain_pure_empty_spec {rIM : String → String → Bool}
    {mgr : RuleSetManager} {domain : String} :
    ∀ rules : List RouteRule,
      (∀ rule ∈ rules, ∀ id ∈ rule.rule_sets,
        (match mgr.get_domain_set id with
         | some ds => (build_domain_matcher rIM ds).is_ok
         | none => true) = true) →
      walk_domain_pure rIM mgr [] domain rules =
        .ok ((rules.find? (fun r => spec_rule_matches_domain rIM mgr r domain)).map
          (fun r => r.outbound)) := by
  intro rules
  induction rules with
  | nil => intro _; rfl
  | cons r rest ih =>
    intro h
    have hr := h r (List.mem_cons_self r rest)
    have htail : ∀ rule ∈ rest, ∀ id ∈ rule.rule_sets,
        (match mgr.get_domain_set id with
         | some ds => (build_domain_matcher rIM ds).is_ok
         | none => true) = true :=
      fun rule hrule => h rule (List.mem_cons_of_mem _ hrule)
    have hverd := domain_sets_verdict_empty_spec domain r.rule_sets hr
    have hs : (r.rule_sets.any (fun id =>
        match mgr.get_domain_set id with
        | some ds => spec_domain_set_matches rIM ds domain
        | none => false)) = spec_rule_matches_domain rIM mgr r domain := rfl
    rw [hs] at hverd
    simp only [walk_domain_pure, hverd]
    cases hm : spec_rule_matches_domain rIM mgr r domain with
    | true =>
      have hf : List.find? (fun r => spec_rule_matches_domain rIM mgr r domain)
          (r :: rest) = some r :=
        List.find?_cons_of_pos _ (by simpa using hm)
      rw [hf]
      rfl
    | false =>
      have hneg : ¬ ((fun r => spec_rule_matches_domain rIM mgr r domain) r = true) := by
        simp [hm]
      have hf : List.find? (fun r => spec_rule_matches_domain rIM mgr r domain)
          (r :: rest) =
          List.find? (fun r => spec_rule_matches_domain rIM mgr r domain) rest :=
        List.find?_cons_of_neg _ hneg
      rw [hf]
      exact ih htail

theorem ip_sets_verdict_empty_spec {mgr : RuleSetManager} (ip : IpAddrT) :
    ∀ ids : List String,
      (∀ id ∈ ids, (match mgr.get_ip_set id with
         | some s => (build_ip_matcher s).is_ok
         | none => true) = true) →
      ip_sets_verdict mgr [] ip ids =
        .ok (ids.any (fun id =>
          match mgr.get_ip_set id with
          | some s => spec_ip_set_matches s ip
          | none => false)) := by
  intro ids
  induction ids with
  | nil => intro _; rfl
  | cons id rest ih =>
    intro h
    have hhead := h id (List.mem_cons_self id rest)
    have htail : ∀ i ∈ rest, (match mgr.get_ip_set i with
        | some s => (build_ip_matcher s).is_ok
        | none => true) = true :=
      fun i hi => h i (List.mem_cons_of_mem _ hi)
    cases hg : mgr.get_ip_set id with
    | none =>
      simp only [ip_sets_verdict, List.any_cons, hg]
      rw [ih htail]
      simp
    | some s =>
      simp only [hg] at hhead
      cases hb : build_ip_matcher s with
      | err e =>
        rw [hb] at hhead
        simp [RustResult.is_ok] at hhead
      | ok m =>
        have hverd : ip_set_verdict [] ip s =
            .ok (m.matches ip == MatcherResult.Match) := by
          unfold ip_set_verdict
          simp [alookup, hb]
        have hspec : spec_ip_set_matches s ip =
            (m.matches ip == MatcherResult.Match) := by
          unfold spec_ip_set_matches
          rw [hb]
        simp only [ip_sets_verdict, List.any_cons, hg, hverd, hspec]
        cases hm : (m.matches ip == MatcherResult.Match) with
        | true => simp
        | false =>
          rw [ih htail]
          simp

theorem walk_ip_pure_empty_spec {mgr : RuleSetManager} {ip : IpAddrT} :
    ∀ rules : List RouteRule,
      (∀ rule ∈ rules, ∀ id ∈ rule.rule_sets,
        (match mgr.get_ip_set id with
         | some s => (build_ip_matcher s).is_ok
         | none => true) = true) →
      walk_ip_pure mgr [] ip rules =
        .ok ((rules.find? (fun r => spec_rule_matches_ip mgr r ip)).map
          (fun r => r.outbound)) := by
  intro rules
  induction rules with
  | nil => intro _; rfl
  | cons r rest ih =>
    intro h
    have hr := h r (List.mem_cons_self r rest)
    have htail : ∀ rule ∈ rest, ∀ id ∈ rule.rule_sets,
        (match mgr.get_ip_set id with
         | some s => (build_ip_matcher s).is_ok
         | none => true) = true :=
      fun rule hrule => h rule (List.mem_cons_of_mem _ hrule)
    have hverd := ip_sets_verdict_empty_spec ip r.rule_sets hr
    have hs : (r.rule_sets.any (fun id =>
        match mgr.get_ip_set id with
        | some s => spec_ip_set_matches s ip
        | none => false)) = spec_rule_matches_ip mgr r ip := rfl
    rw [hs] at hverd
    simp only [walk_ip_pure, hverd]
    cases hm : spec_rule_matches_ip mgr r ip with
    | true =>
      have hf : List.find? (fun r => spec_rule_matches_ip mgr r ip) (r :: rest) =
          some r :=
        List.find?_cons_of_pos _ (by simpa using hm)
      rw [hf]
      rfl
    | false =>
      have hneg : ¬ ((fun r => spec_rule_matches_ip mgr r ip) r = true) := by
        simp [hm]
      have hf : List.find? (fun r => spec_rule_matches_ip mgr r ip) (r :: rest) =
          List.find? (fun r => spec_rule_matches_ip mgr r ip) rest :=
        List.find?_cons_of_neg _ hneg
      rw [hf]
      exact ih htail

/-- C5.  Starting from an empty matcher cache (the decision cache is
arbitrary) and assuming every rule set referenced by the rules compiles
(otherwise the query panics, see the C6 analysis), `select_outbound_for_domain`
and `select_outbound_for_ip` return exactly the outbound of the first rule in
declaration order whose referenced rule sets match the query (OR across a
rule's rule sets), and the configured default outbound when no rule
matches — the spec-side functions `spec_select_outbound_for_domain` /
`spec_select_outbound_for_ip`. -/
theorem c5_first_matching_rule_wins_with_default_fallback :
    ∀ (rIM : String → String → Bool) (router : HighPerformanceRouter)
      (mcache : MatchCache) (domain : String) (ip : IpAddrT),
      (∀ rule ∈ router.rules, ∀ id ∈ rule.rule_sets,
        (match router.rule_manager.get_domain_set id with
         | some ds => (build_domain_matcher rIM ds).is_ok
         | none => true) = true) →
      (∀ rule ∈ router.rules, ∀ id ∈ rule.rule_sets,
        (match router.rule_manager.get_ip_set id with
         | some s => (build_ip_matcher s).is_ok
         | none => true) = true) →
      (select_outbound_for_domain rIM router ⟨mcache_empty, mcache⟩ domain).1 =
          .ok (spec_select_outbound_for_domain rIM router domain) ∧
      (select_outbound_for_ip router ⟨mcache_empty, mcache⟩ ip).1 =
          .ok (spec_select_outbound_for_ip router ip) := by
  intro rIM router mcache domain ip hd hip
  constructor
  · have h1 := select_domain_verdict rIM router
      ⟨mcache_empty, mcache⟩ domain []
      (dmExt_refl rIM router.rule_manager [])
    rw [h1.1]
    unfold domain_route_result
    rw [walk_domain_pure_empty_spec router.rules hd]
    unfold spec_select_outbound_for_domain
    cases hf : router.rules.find?
        (fun r => spec_rule_matches_domain rIM router.rule_manager r domain) with
    | some r => simp
    | none => simp
  · have g1 := select_ip_verdict router
      ⟨mcache_empty, mcache⟩ ip []
      (ipExt_refl router.rule_manager [])
    rw [g1.1]
    unfold ip_route_result
    rw [walk_ip_pure_empty_spec router.rules hip]
    unfold spec_select_outbound_for_ip
    cases hf : router.rules.find?
        (fun r => spec_rule_matches_ip router.rule_manager r ip) with
    | some r => simp
    | none => simp

/-- Witness for C5: on `router_w` (rule 1: domain set `A` = exact
`example.com` → `"x"`; rule 2: IP set `B` = `10.0.0.0/8` → `"y"`), the
domain query `example.com` selects `"x"` and the IP query `10.0.0.0` (the
masked network address — the only kind of address the trie bug of C2 lets
match) selects `"y"`; both hypotheses are discharged by computation. -/
theorem c5_first_matching_rule_wins_with_default_fallback_witness :
    (select_outbound_for_domain rIM0 router_w rstate_empty "example.com").1 =
        .ok "x" ∧
    (select_outbound_for_ip router_w rstate_empty (.v4 (10 * 2 ^ 24))).1 =
        .ok "y" := by
  have h := c5_first_matching_rule_wins_with_default_fallback rIM0 router_w
    rstate_empty.match_cache "example.com" (.v4 (10 * 2 ^ 24))
    (by decide) (by decide)
  have hst : (RouterState.mk mcache_empty rstate_empty.match_cache) = rstate_empty := rfl
  rw [hst] at h
  constructor
  · rw [h.1]
    decide
  · rw [h.2]
    decide

end Anybls
